import Mathlib

/-!
# Shallow embedding of pysol_httpclient HttpClient

This file embeds `src/pysolhttpclient/Http/HttpClient.py` (a pooled,
dual-backend HTTP request executor) in Lean 4 and proves properties of
the embedding.

Modelling conventions:
* Python dictionaries become association lists; Python truthiness of
  optional strings/bytes is made explicit (`truthyS`).
* Raised exceptions become an `Exn` datatype; a call that can raise
  returns either `Except Exn _` or a `StepOut` record whose `exn` field
  holds the exception escaping the call (`none` means normal return).
* Network I/O and URI parsing are external collaborators; they are
  supplied through an `Env` record (a parse function and the network
  outcome of the one backend call a request performs).
* The cooperative deadline guard (`gevent.with_timeout`) is modelled by
  the environment flag `times_out`: when set, the guarded execution is
  aborted before producing any effect, matching the specified
  cancellation semantics (body/status left at their zero values).
* The source is Python 2 (`iteritems`), so `/` on integer millisecond
  timeouts is floor division; it becomes `Nat` division here.
-/

namespace PysolHttp

/-- Scheme constant imported by HttpClient.py from geventhttpclient (`PROTO_HTTPS`). -/
def PROTO_HTTPS : String := "https"

/-- `HttpClient.HTTP_IMPL_AUTO` is Python `None`: an absent forced-backend selector. -/
def HTTP_IMPL_AUTO : Option Nat := none

/-- `HttpClient.HTTP_IMPL_GEVENT` (Backend A). -/
def HTTP_IMPL_GEVENT : Nat := 1

/-- `HttpClient.HTTP_IMPL_URLLIB3` (Backend B). -/
def HTTP_IMPL_URLLIB3 : Nat := 3

/-- Python truthiness of an optional string: `None` and `""` are falsy. -/
def truthyS : Option String → Bool
  | none => false
  | some s => !(s == "")

/-- A header-mapping value: a scalar on first insertion, a list after merges. -/
inductive HVal where
  | scalar (v : String)
  | vlist (vs : List String)
deriving DecidableEq, Repr

/-- Python `d[k] = v` on a dict modelled as an association list: replace the
binding of `k` (used only when `k` is already bound). -/
def hset (d : List (String × HVal)) (k : String) (v : HVal) :
    List (String × HVal) :=
  d.map (fun p => if p.1 = k then (k, v) else p)

/-- `HttpClient._add_header(d, k, v)` (lines 270-291): merge header value `v`
under key `k` into dict `d` — fresh key stores the scalar, a second value
turns the scalar into a two-element list, later values append. -/
def _add_header (d : List (String × HVal)) (k : String) (v : String) :
    List (String × HVal) :=
  match d.find? (fun p => decide (p.1 = k)) with
  | none => d ++ [(k, HVal.scalar v)]
  | some (_, HVal.scalar v0) => hset d k (HVal.vlist [v0, v])
  | some (_, HVal.vlist vs) => hset d k (HVal.vlist (vs ++ [v]))

/-- Dict lookup on the header mapping (Python `d[k]`, as an option). -/
def hget (d : List (String × HVal)) (k : String) : Option HVal :=
  (d.find? (fun p => decide (p.1 = k))).map (fun p => p.2)

/-- Modelled from the spec: the external Request value object (§3, §6 — the
class `HttpRequest` is not under src/); exactly the fields HttpClient.py
reads. Millisecond timeouts are integers, body and method may be absent. -/
structure HttpRequest where
  uri : String := ""
  method : Option String := none
  post_data : Option String := none
  headers : List (String × HVal) := []
  https_insecure : Bool := false
  disable_ipv6 : Bool := false
  connection_timeout_ms : Nat := 10000
  network_timeout_ms : Nat := 10000
  general_timeout_ms : Nat := 30000
  http_concurrency : Nat := 2048
  http_proxy_host : Option String := none
  http_proxy_port : Nat := 3128
  force_http_implementation : Option Nat := none
deriving DecidableEq, Repr

/-- The exceptions HttpClient.py raises or records, as data. -/
inductive Exn where
  | timeout (general_timeout_sec : ℚ)
  | geventPoolMaxed (cur maxn : Nat)
  | u3PoolMaxed (cur maxn : Nat)
  | unsupportedGeventMethod (m : String)
  | invalidGeventMethod (m : String)
  | invalidU3Method (m : String)
  | noResponse
  | invalidImpl
  | backendInternal (msg : String)
deriving DecidableEq, Repr

/-- Modelled from the spec: the external Response value object (§3 — the class
`HttpResponse` is not under src/); mutable container the dispatcher and
backends populate, all fields starting at their zero values. -/
structure HttpResponse where
  http_request : Option HttpRequest := none
  http_implementation : Option Nat := none
  status_code : Option Nat := none
  buffer : Option String := none
  content_length : Nat := 0
  headers : List (String × HVal) := []
  elapsed_ms : Option Nat := none
  exception : Option Exn := none
deriving DecidableEq, Repr

/-- Modelled from the spec: the output of the external URL parser (§6 —
`geventhttpclient.url.URL`): host, port, scheme and request path/query. -/
structure URLp where
  scheme : String := "http"
  host : String := ""
  port : Nat := 80
  request_uri : String := "/"
deriving DecidableEq, Repr

/-- What a backend call observes from the network: status, body bytes,
backend-reported content length (absent or zero when not reported), and
response headers in arrival order. -/
structure NetResp where
  status_code : Nat := 200
  body : String := ""
  content_length : Option Nat := none
  headers : List (String × String) := []
deriving DecidableEq, Repr

/-- The gevent registry key (`gevent_from_pool`, lines 86-100): host, port,
TLS flag, the request's connection-relevant attributes, and the millisecond
timeouts floor-divided by 1000 (Python 2 integer `/`). Structural equality
of this record coincides with equality of the formatted key string, since
the string is built from these components in a fixed order. -/
structure GeventKey where
  host : String
  port : Nat
  is_https : Bool
  https_insecure : Bool
  disable_ipv6 : Bool
  connection_timeout_s : Nat
  network_timeout_s : Nat
  http_concurrency : Nat
  http_proxy_host : Option String
  http_proxy_port : Nat
deriving DecidableEq, Repr

/-- Key computation of `gevent_from_pool` (lines 86-100). -/
def gevent_key (url : URLp) (r : HttpRequest) : GeventKey :=
  { host := url.host
    port := url.port
    is_https := url.scheme == PROTO_HTTPS
    https_insecure := r.https_insecure
    disable_ipv6 := r.disable_ipv6
    connection_timeout_s := r.connection_timeout_ms / 1000
    network_timeout_s := r.network_timeout_ms / 1000
    http_concurrency := r.http_concurrency
    http_proxy_host := r.http_proxy_host
    http_proxy_port := r.http_proxy_port }

/-- A pool entry of the gevent registry: the arguments `HTTPClient.from_url`
is called with (lines 116-126), plus an allocation id `eid` standing for the
object's identity. -/
structure GeventEntry where
  eid : Nat
  insecure : Bool
  disable_ipv6 : Bool
  connection_timeout : Nat
  network_timeout : Nat
  concurrency : Nat
  proxy_host : Option String
  proxy_port : Nat
deriving DecidableEq, Repr

/-- The urllib3 proxy registry key (`urllib3_from_pool`, lines 151-154):
proxy host and port only. -/
structure U3Key where
  proxy_host : String
  proxy_port : Nat
deriving DecidableEq, Repr

/-- A pool entry of the urllib3 proxy registry: a `ProxyManager` with its
proxy url (lines 170-176), plus an allocation id standing for identity. -/
structure U3Entry where
  pid : Nat
  proxy_url : String
deriving DecidableEq, Repr

/-- What `urllib3_from_pool` returns: the single shared `PoolManager`
(identified by its id) or a proxy-specific `ProxyManager`. -/
inductive U3Pool where
  | basic (pid : Nat)
  | proxy (e : U3Entry)
deriving DecidableEq, Repr

/-- The mutable state of one `HttpClient` instance (`__init__`, lines 53-68):
the gevent registry, the shared urllib3 `PoolManager` (its identity), and the
urllib3 proxy registry. `next_eid` / `u3_next_pid` model object allocation. -/
structure ClientState where
  gevent_pool : List (GeventKey × GeventEntry) := []
  gevent_pool_max : Nat := 1024
  next_eid : Nat := 0
  u3_basic_pool : Nat := 0
  u3_proxy_pool : List (U3Key × U3Entry) := []
  u3_proxy_pool_max : Nat := 1024
  u3_next_pid : Nat := 1
deriving DecidableEq, Repr

/-- The `HTTPClient.from_url` call of `gevent_from_pool` (lines 116-126):
the entry allocated on a registry miss, carrying the request's flags and the
millisecond timeouts floor-divided to whole seconds. -/
def gevent_alloc_entry (st : ClientState) (r : HttpRequest) : GeventEntry :=
  { eid := st.next_eid
    insecure := r.https_insecure
    disable_ipv6 := r.disable_ipv6
    connection_timeout := r.connection_timeout_ms / 1000
    network_timeout := r.network_timeout_ms / 1000
    concurrency := r.http_concurrency
    proxy_host := r.http_proxy_host
    proxy_port := r.http_proxy_port }

/-- `HttpClient.gevent_from_pool` (lines 74-131): return the cached client
for the computed key, or, when the registry is not at capacity, allocate one
with the truncated whole-second timeouts and insert it; a fresh key with the
registry at capacity raises. -/
def gevent_from_pool (st : ClientState) (url : URLp) (r : HttpRequest) :
    Except Exn (GeventEntry × ClientState) :=
  let key := gevent_key url r
  match st.gevent_pool.find? (fun p => decide (p.1 = key)) with
  | some p => .ok (p.2, st)
  | none =>
    if st.gevent_pool.length ≥ st.gevent_pool_max then
      .error (.geventPoolMaxed st.gevent_pool.length st.gevent_pool_max)
    else
      let http : GeventEntry := gevent_alloc_entry st r
      .ok (http, { st with
                    gevent_pool := st.gevent_pool ++ [(key, http)]
                    next_eid := st.next_eid + 1 })

/-- Key computation of `urllib3_from_pool` (lines 151-154): proxy host and
port. -/
def u3_key (r : HttpRequest) : U3Key :=
  { proxy_host := r.http_proxy_host.getD "", proxy_port := r.http_proxy_port }

/-- `HttpClient.urllib3_from_pool` (lines 137-180): a request with a falsy
proxy host gets the shared `PoolManager`; otherwise the proxy registry is
consulted under the key (proxy host, proxy port), allocating a
`ProxyManager` on a miss while below capacity. -/
def urllib3_from_pool (st : ClientState) (r : HttpRequest) :
    Except Exn (U3Pool × ClientState) :=
  if truthyS r.http_proxy_host = false then
    .ok (.basic st.u3_basic_pool, st)
  else
    let h := r.http_proxy_host.getD ""
    let key : U3Key := u3_key r
    match st.u3_proxy_pool.find? (fun p => decide (p.1 = key)) with
    | some p => .ok (.proxy p.2, st)
    | none =>
      if st.u3_proxy_pool.length ≥ st.u3_proxy_pool_max then
        .error (.u3PoolMaxed st.u3_proxy_pool.length st.u3_proxy_pool_max)
      else
        let pe : U3Entry :=
          { pid := st.u3_next_pid
            proxy_url := "http://" ++ h ++ ":" ++ toString r.http_proxy_port }
        .ok (.proxy pe, { st with
                            u3_proxy_pool := st.u3_proxy_pool ++ [(key, pe)]
                            u3_next_pid := st.u3_next_pid + 1 })

/-- Method dispatch of `_go_gevent` (lines 328-370): the method token of the
client call actually issued and the body passed to it, or the exception
raised. A falsy method auto-detects POST-if-body else GET. -/
def gevent_select_method (method : Option String) (post_data : Option String) :
    Except Exn (String × Option String) :=
  if truthyS method = false then
    if truthyS post_data then .ok ("POST", post_data) else .ok ("GET", none)
  else
    if method.getD "" = "GET" then .ok ("GET", none)
    else if method.getD "" = "DELETE" then .ok ("DELETE", post_data)
    else if method.getD "" = "HEAD" then .ok ("HEAD", none)
    else if method.getD "" = "PUT" then .ok ("PUT", post_data)
    else if method.getD "" = "POST" then .ok ("POST", post_data)
    else if method.getD "" = "PATCH" then
      .error (.unsupportedGeventMethod (method.getD ""))
    else if method.getD "" = "OPTIONS" then
      .error (.unsupportedGeventMethod (method.getD ""))
    else if method.getD "" = "TRACE" then
      .error (.unsupportedGeventMethod (method.getD ""))
    else .error (.invalidGeventMethod (method.getD ""))

/-- Method dispatch of `_go_urllib3` (lines 447-490): the method token passed
to `urlopen` and the body passed with it, or the exception raised. -/
def u3_select_method (method : Option String) (post_data : Option String) :
    Except Exn (String × Option String) :=
  if truthyS method = false then
    if truthyS post_data then .ok ("POST", post_data) else .ok ("GET", none)
  else
    if method.getD "" = "GET" ∨ method.getD "" = "HEAD"
        ∨ method.getD "" = "OPTIONS" ∨ method.getD "" = "TRACE" then
      .ok (method.getD "", none)
    else if method.getD "" = "POST" ∨ method.getD "" = "PUT"
        ∨ method.getD "" = "PATCH" ∨ method.getD "" = "DELETE" then
      .ok (method.getD "", post_data)
    else .error (.invalidU3Method (method.getD ""))

/-- Content-length resolution of `_go_gevent` (lines 388-394): a truthy
backend-reported length wins; otherwise the byte length of a truthy buffer;
otherwise 0. -/
def gevent_content_length (reported : Option Nat) (buffer : String) : Nat :=
  match reported with
  | some n => if n ≠ 0 then n else (if buffer ≠ "" then buffer.length else 0)
  | none => if buffer ≠ "" then buffer.length else 0

/-- The external collaborators of one call: the URI parser and the outcome
the network hands each backend (`.error` = the backend call raises;
gevent may also observe a falsy response object, `.ok none`). `times_out`
states whether the general deadline elapses before the guarded execution
completes, and `elapsed_ms` is the wall-clock spent in the call. -/
structure Env where
  parse_url : String → URLp
  gevent_net : Except String (Option NetResp) := .ok (some {})
  u3_net : Except String NetResp := .ok {}
  times_out : Bool := false
  elapsed_ms : Nat := 0

/-- Outcome of a (possibly raising) internal step: the response as mutated so
far, the client state, and the exception escaping the step (`none` on normal
return). -/
structure StepOut where
  resp : HttpResponse
  st : ClientState
  exn : Option Exn := none

/-- `HttpClient._go_gevent` (lines 297-403): record the implementation, get a
pooled client, dispatch on the method, and on a network response populate
status, buffer, resolved content length and merged headers; a falsy response
object raises `noResponse`. -/
def _go_gevent (env : Env) (r : HttpRequest) (st : ClientState)
    (resp : HttpResponse) : StepOut :=
  let resp := { resp with http_implementation := some HTTP_IMPL_GEVENT }
  let url := env.parse_url r.uri
  match gevent_from_pool st url r with
  | .error e => { resp := resp, st := st, exn := some e }
  | .ok (_http, st) =>
    match gevent_select_method r.method r.post_data with
    | .error e => { resp := resp, st := st, exn := some e }
    | .ok _call =>
      match env.gevent_net with
      | .error msg => { resp := resp, st := st, exn := some (.backendInternal msg) }
      | .ok none => { resp := resp, st := st, exn := some .noResponse }
      | .ok (some nr) =>
        let resp := { resp with
          status_code := some nr.status_code
          buffer := some nr.body
          content_length := gevent_content_length nr.content_length nr.body
          headers := nr.headers.foldl
            (fun d kv => _add_header d kv.1 kv.2) resp.headers }
        { resp := resp, st := st, exn := none }

/-- `HttpClient._go_urllib3` (lines 409-502): record the implementation, get
the shared or proxy pool, dispatch on the method with retries and redirects
disabled, and populate status, merged headers, buffer, and a content length
always computed from the returned body. -/
def _go_urllib3 (env : Env) (r : HttpRequest) (st : ClientState)
    (resp : HttpResponse) : StepOut :=
  let resp := { resp with http_implementation := some HTTP_IMPL_URLLIB3 }
  match urllib3_from_pool st r with
  | .error e => { resp := resp, st := st, exn := some e }
  | .ok (_pool, st) =>
    match u3_select_method r.method r.post_data with
    | .error e => { resp := resp, st := st, exn := some e }
    | .ok _call =>
      match env.u3_net with
      | .error msg => { resp := resp, st := st, exn := some (.backendInternal msg) }
      | .ok nr =>
        let resp := { resp with
          status_code := some nr.status_code
          headers := nr.headers.foldl
            (fun d kv => _add_header d kv.1 kv.2) resp.headers
          buffer := some nr.body
          content_length := nr.body.length }
        { resp := resp, st := st, exn := none }

/-- Backend selection of `_go_http_internal` (lines 231-247): an absent
forced implementation defaults to urllib3; a truthy proxy host combined with
an https scheme forces urllib3 even over an explicit force. -/
def resolve_impl (r : HttpRequest) (url : URLp) : Nat :=
  let impl := match r.force_http_implementation with
    | none => HTTP_IMPL_URLLIB3
    | some i => i
  if truthyS r.http_proxy_host && (url.scheme == PROTO_HTTPS) then
    HTTP_IMPL_URLLIB3
  else impl

/-- The try-body of `_go_http_internal` (lines 231-260): resolve the backend
and run it; an implementation that is neither gevent nor urllib3 raises. -/
def dispatch_impl (env : Env) (r : HttpRequest) (st : ClientState)
    (resp : HttpResponse) : StepOut :=
  let url := env.parse_url r.uri
  let impl := resolve_impl r url
  if impl = HTTP_IMPL_GEVENT then _go_gevent env r st resp
  else if impl = HTTP_IMPL_URLLIB3 then _go_urllib3 env r st resp
  else { resp := resp, st := st, exn := some Exn.invalidImpl }

/-- The except-clause of `_go_http_internal` (lines 261-264): any escaping
exception is stored in the response's exception field and re-raised. -/
def record_exn (out : StepOut) : StepOut :=
  match out.exn with
  | none => out
  | some e => { out with resp := { out.resp with exception := some e } }

/-- `HttpClient._go_http_internal` (lines 222-264): resolve the backend, run
it, and on any exception store it in the response's exception field and
re-raise. -/
def _go_http_internal (env : Env) (r : HttpRequest) (st : ClientState)
    (resp : HttpResponse) : StepOut :=
  record_exn (dispatch_impl env r st resp)

/-- `general_timeout_sec` as computed by `go_http` (line 197): the request's
millisecond general timeout divided by 1000, as an exact rational. -/
def general_timeout_sec (r : HttpRequest) : ℚ :=
  (r.general_timeout_ms : ℚ) / 1000

/-- `HttpClient.go_http` (lines 186-220): allocate a fresh response, attach
the request, run `_go_http_internal` under the cooperative deadline guard
(`gevent.with_timeout`) and absorb only the guard's `Timeout`, recording it
in the response's exception field; the elapsed time is recorded on every
exit path, and any non-`Timeout` exception keeps propagating to the caller
(`exn` field of the result). The guard's expiry is modelled as aborting the
guarded execution before it produces any effect. -/
def go_http (env : Env) (st : ClientState) (r : HttpRequest) : StepOut :=
  let resp0 : HttpResponse := { http_request := some r }
  if env.times_out then
    { resp := { resp0 with
                  exception := some (.timeout (general_timeout_sec r))
                  elapsed_ms := some env.elapsed_ms }
      st := st
      exn := none }
  else
    let out := _go_http_internal env r st resp0
    { out with resp := { out.resp with elapsed_ms := some env.elapsed_ms } }

/-! ### Concrete sample inputs

Named concrete values used to instantiate universally quantified results
below. -/

/-- A sample parsed https URL. -/
def urlW : URLp := { scheme := "https", host := "hw", port := 443 }

/-- A sample parsed plain-http URL. -/
def urlH : URLp := { scheme := "http", host := "hw", port := 80 }

/-- A default request. -/
def reqW : HttpRequest := {}

/-- An environment whose parser always yields `urlW` and whose network
always answers with the default successful response. -/
def envW : Env := { parse_url := fun _ => urlW }

/-- An environment whose deadline guard expires. -/
def envTO : Env := { parse_url := fun _ => urlW, times_out := true, elapsed_ms := 42 }

/-- A request carrying an invalid method token, forced to urllib3. -/
def rBadMethod : HttpRequest :=
  { method := some "FOO", force_http_implementation := some HTTP_IMPL_URLLIB3 }

/-- A request forcing the gevent backend while carrying a proxy host, aimed
at an https URI. -/
def rForceA : HttpRequest :=
  { uri := "https://x", http_proxy_host := some "p",
    force_http_implementation := some HTTP_IMPL_GEVENT }

/-- A request carrying a truthy proxy host. -/
def rProxy : HttpRequest := { http_proxy_host := some "p", http_proxy_port := 8080 }

/-- An arbitrary pre-existing gevent pool entry. -/
def entW : GeventEntry :=
  { eid := 99, insecure := true, disable_ipv6 := false, connection_timeout := 7,
    network_timeout := 7, concurrency := 1, proxy_host := none, proxy_port := 0 }

/-- A client state whose gevent registry already holds `reqW`'s key. -/
def stHitG : ClientState := { gevent_pool := [(gevent_key urlW reqW, entW)] }

/-- A client state whose gevent registry is at (zero) capacity. -/
def stFullG : ClientState := { gevent_pool_max := 0 }

/-- An arbitrary pre-existing urllib3 proxy pool entry. -/
def pW : U3Entry := { pid := 7, proxy_url := "x" }

/-- A client state whose urllib3 proxy registry already holds `rProxy`'s key. -/
def stHitU : ClientState := { u3_proxy_pool := [(u3_key rProxy, pW)] }

/-- A client state whose urllib3 proxy registry is at (zero) capacity. -/
def stFullU : ClientState := { u3_proxy_pool_max := 0 }

/-- A request with 1000 ms connection and network timeouts. -/
def rT1 : HttpRequest := { connection_timeout_ms := 1000, network_timeout_ms := 1000 }

/-- A request with 1999 ms connection and network timeouts. -/
def rT2 : HttpRequest := { connection_timeout_ms := 1999, network_timeout_ms := 1999 }

/-- The entry `gevent_from_pool` allocates for `rT1` from an empty state:
timeouts truncated to one whole second. -/
def entT1 : GeventEntry :=
  { eid := 0, insecure := false, disable_ipv6 := false, connection_timeout := 1,
    network_timeout := 1, concurrency := 2048, proxy_host := none,
    proxy_port := 3128 }

/-- The state after allocating `entT1` for `rT1` from an empty state. -/
def stT1 : ClientState :=
  { gevent_pool := [(gevent_key urlW rT1, entT1)], next_eid := 1 }

/-- An environment whose gevent network result reports content length 5 with
body "abc". -/
def envGLen5 : Env :=
  { parse_url := fun _ => urlW,
    gevent_net := .ok (some { body := "abc", content_length := some 5 }) }

/-- An environment whose gevent network result reports no content length and
body "abc". -/
def envGNoLen : Env :=
  { parse_url := fun _ => urlW,
    gevent_net := .ok (some { body := "abc", content_length := none }) }

/-- An environment whose urllib3 network result reports content length 5
with an empty body. -/
def envU3Len : Env :=
  { parse_url := fun _ => urlW,
    u3_net := .ok { body := "", content_length := some 5 } }

/-- An environment whose urllib3 network result has body "ab" and reports
content length 99. -/
def envU3Body : Env :=
  { parse_url := fun _ => urlW,
    u3_net := .ok { body := "ab", content_length := some 99 } }

/-! ### Helper lemmas -/

theorem find?_append_self {κ ε : Type} [DecidableEq κ] (l : List (κ × ε))
    (k : κ) (x : ε) (h : l.find? (fun q => decide (q.1 = k)) = none) :
    (l ++ [(k, x)]).find? (fun q => decide (q.1 = k)) = some (k, x) := by
  rw [List.find?_append, h]
  simp

theorem find?_hset_self (d : List (String × HVal)) (k : String) (v : HVal)
    (h : (d.find? fun p => decide (p.1 = k)).isSome) :
    (hset d k v).find? (fun p => decide (p.1 = k)) = some (k, v) := by
  induction d with
  | nil => simp [List.find?] at h
  | cons p t ih =>
    by_cases hk : p.1 = k
    · simp [hset, hk]
    · have h' : (t.find? fun p => decide (p.1 = k)).isSome := by
        simpa [List.find?_cons_of_neg, hk] using h
      simpa [hset, hk] using ih h'

theorem _add_header_fresh (d : List (String × HVal)) (k : String) (v : String)
    (h : d.find? (fun p => decide (p.1 = k)) = none) :
    _add_header d k v = d ++ [(k, HVal.scalar v)] := by
  unfold _add_header
  rw [h]

theorem _add_header_scalar (d : List (String × HVal)) (k : String)
    (v0 v : String)
    (h : d.find? (fun p => decide (p.1 = k)) = some (k, HVal.scalar v0)) :
    _add_header d k v = hset d k (HVal.vlist [v0, v]) := by
  unfold _add_header
  rw [h]

theorem _add_header_vlist (d : List (String × HVal)) (k : String)
    (vs : List String) (v : String)
    (h : d.find? (fun p => decide (p.1 = k)) = some (k, HVal.vlist vs)) :
    _add_header d k v = hset d k (HVal.vlist (vs ++ [v])) := by
  unfold _add_header
  rw [h]

/-! ### C5: header merge law -/

/-- C5: for every header mapping and key, merging a single value under a
fresh key stores that scalar value unmerged, and merging values v1 then v2
then v3 under the same key yields the list [v1, v2, v3]. -/
theorem c5_header_merge_law (d : List (String × HVal)) (k : String)
    (v1 v2 v3 : String)
    (hfresh : d.find? (fun p => decide (p.1 = k)) = none) :
    hget (_add_header d k v1) k = some (HVal.scalar v1) ∧
    hget (_add_header (_add_header d k v1) k v2) k
      = some (HVal.vlist [v1, v2]) ∧
    hget (_add_header (_add_header (_add_header d k v1) k v2) k v3) k
      = some (HVal.vlist [v1, v2, v3]) := by
  have e1 : _add_header d k v1 = d ++ [(k, HVal.scalar v1)] :=
    _add_header_fresh d k v1 hfresh
  have f1 : (_add_header d k v1).find? (fun p => decide (p.1 = k))
      = some (k, HVal.scalar v1) := by
    rw [e1]
    exact find?_append_self d k _ hfresh
  have e2 : _add_header (_add_header d k v1) k v2
      = hset (_add_header d k v1) k (HVal.vlist [v1, v2]) :=
    _add_header_scalar _ k v1 v2 f1
  have f2 : (_add_header (_add_header d k v1) k v2).find?
        (fun p => decide (p.1 = k)) = some (k, HVal.vlist [v1, v2]) := by
    rw [e2]
    exact find?_hset_self _ k _ (by rw [f1]; rfl)
  have e3 : _add_header (_add_header (_add_header d k v1) k v2) k v3
      = hset (_add_header (_add_header d k v1) k v2)
          k (HVal.vlist ([v1, v2] ++ [v3])) :=
    _add_header_vlist _ k [v1, v2] v3 f2
  have f3 : (_add_header (_add_header (_add_header d k v1) k v2) k v3).find?
        (fun p => decide (p.1 = k)) = some (k, HVal.vlist [v1, v2, v3]) := by
    rw [e3]
    exact find?_hset_self _ k _ (by rw [f2]; rfl)
  exact ⟨by simp [hget, f1], by simp [hget, f2], by simp [hget, f3]⟩

/-- C5 witness: the merge law evaluated on the empty mapping. -/
theorem c5_header_merge_law_witness :
    hget (_add_header ([] : List (String × HVal)) "k" "a") "k"
      = some (HVal.scalar "a") ∧
    hget (_add_header (_add_header [] "k" "a") "k" "b") "k"
      = some (HVal.vlist ["a", "b"]) ∧
    hget (_add_header (_add_header (_add_header [] "k" "a") "k" "b") "k" "c")
        "k" = some (HVal.vlist ["a", "b", "c"]) :=
  c5_header_merge_law [] "k" "a" "b" "c" (by rfl)

/-! ### C6: auto method-detection -/

/-- C6: for every request with no HTTP method set, both backends resolve the
method by auto-detection — POST (sending the body) if the body is non-empty,
GET if the body is empty or absent. -/
theorem c6_auto_method_detection (method post_data : Option String)
    (hm : truthyS method = false) :
    (truthyS post_data = true →
      gevent_select_method method post_data = .ok ("POST", post_data) ∧
      u3_select_method method post_data = .ok ("POST", post_data)) ∧
    (truthyS post_data = false →
      gevent_select_method method post_data = .ok ("GET", none) ∧
      u3_select_method method post_data = .ok ("GET", none)) := by
  constructor <;> intro hp <;>
    simp [gevent_select_method, u3_select_method, hm, hp]

/-- C6 witness: auto-detection at an absent method with body "b" and with no
body. -/
theorem c6_auto_method_detection_witness :
    (gevent_select_method none (some "b") = .ok ("POST", some "b") ∧
     u3_select_method none (some "b") = .ok ("POST", some "b")) ∧
    (gevent_select_method none none = .ok ("GET", none) ∧
     u3_select_method none none = .ok ("GET", none)) :=
  ⟨(c6_auto_method_detection none (some "b") (by decide)).1 (by decide),
   (c6_auto_method_detection none none (by decide)).2 (by decide)⟩

/-! ### C7: per-backend supported-method tables -/

/-- C7: Backend A (gevent) executes GET, HEAD, PUT, POST, DELETE, raises an
unsupported-method error for PATCH, OPTIONS, TRACE and an invalid-method
error for any other token; Backend B (urllib3) executes GET, HEAD, OPTIONS,
TRACE without a body and POST, PUT, PATCH, DELETE with the body, and raises
an invalid-method error for any other token. -/
theorem c7_method_tables (pd : Option String) (m : String) :
    gevent_select_method (some "GET") pd = .ok ("GET", none) ∧
    gevent_select_method (some "HEAD") pd = .ok ("HEAD", none) ∧
    gevent_select_method (some "PUT") pd = .ok ("PUT", pd) ∧
    gevent_select_method (some "POST") pd = .ok ("POST", pd) ∧
    gevent_select_method (some "DELETE") pd = .ok ("DELETE", pd) ∧
    gevent_select_method (some "PATCH") pd
      = .error (.unsupportedGeventMethod "PATCH") ∧
    gevent_select_method (some "OPTIONS") pd
      = .error (.unsupportedGeventMethod "OPTIONS") ∧
    gevent_select_method (some "TRACE") pd
      = .error (.unsupportedGeventMethod "TRACE") ∧
    (m ≠ "" →
      m ∉ (["GET", "DELETE", "HEAD", "PUT", "POST", "PATCH", "OPTIONS",
        "TRACE"] : List String) →
      gevent_select_method (some m) pd = .error (.invalidGeventMethod m)) ∧
    u3_select_method (some "GET") pd = .ok ("GET", none) ∧
    u3_select_method (some "HEAD") pd = .ok ("HEAD", none) ∧
    u3_select_method (some "OPTIONS") pd = .ok ("OPTIONS", none) ∧
    u3_select_method (some "TRACE") pd = .ok ("TRACE", none) ∧
    u3_select_method (some "POST") pd = .ok ("POST", pd) ∧
    u3_select_method (some "PUT") pd = .ok ("PUT", pd) ∧
    u3_select_method (some "PATCH") pd = .ok ("PATCH", pd) ∧
    u3_select_method (some "DELETE") pd = .ok ("DELETE", pd) ∧
    (m ≠ "" →
      m ∉ (["GET", "HEAD", "OPTIONS", "TRACE", "POST", "PUT", "PATCH",
        "DELETE"] : List String) →
      u3_select_method (some m) pd = .error (.invalidU3Method m)) := by
  refine ⟨?_, ?_, ?_, ?_, ?_, ?_, ?_, ?_, ?_, ?_, ?_, ?_, ?_, ?_, ?_, ?_,
    ?_, ?_⟩ <;>
    first
    | (intro hne hmem
       simp only [List.mem_cons, List.mem_singleton, not_or,
         List.not_mem_nil, not_false_eq_true, and_true] at hmem
       obtain ⟨h1, h2, h3, h4, h5, h6, h7, h8⟩ := hmem
       simp [gevent_select_method, u3_select_method, truthyS, hne,
         h1, h2, h3, h4, h5, h6, h7, h8])
    | simp [gevent_select_method, u3_select_method, truthyS]

/-- C7 witness: the tables evaluated at body "b" and the foreign token
"FOO". -/
theorem c7_method_tables_witness :
    gevent_select_method (some "FOO") (some "b")
      = .error (.invalidGeventMethod "FOO") ∧
    u3_select_method (some "FOO") (some "b")
      = .error (.invalidU3Method "FOO") ∧
    gevent_select_method (some "PATCH") (some "b")
      = .error (.unsupportedGeventMethod "PATCH") ∧
    u3_select_method (some "PATCH") (some "b") = .ok ("PATCH", some "b") := by
  obtain ⟨-, -, -, -, -, hgp, -, -, hginv, -, -, -, -, -, -, hup, -, huinv⟩ :=
    c7_method_tables (some "b") "FOO"
  exact ⟨hginv (by decide) (by decide), huinv (by decide) (by decide), hgp, hup⟩

/-! ### C9: the shared urllib3 direct pool -/

/-- C9: for every request with no (truthy) proxy host, `urllib3_from_pool`
returns the single shared PoolManager created at construction — the
identical object for all such requests, with the proxy registry, its
counter, and the whole client state untouched. -/
theorem c9_shared_direct_pool (st : ClientState) (r : HttpRequest)
    (h : truthyS r.http_proxy_host = false) :
    urllib3_from_pool st r = .ok (.basic st.u3_basic_pool, st) := by
  simp [urllib3_from_pool, h]

/-- C9 witness: a proxyless request against a state with a non-empty proxy
registry still gets the shared pool and leaves the state unchanged. -/
theorem c9_shared_direct_pool_witness :
    urllib3_from_pool stHitU reqW = .ok (.basic stHitU.u3_basic_pool, stHitU) :=
  c9_shared_direct_pool stHitU reqW (by decide)

/-! ### Pool registry lemmas -/

theorem gevent_from_pool_hit (st : ClientState) (url : URLp) (r : HttpRequest)
    (p : GeventKey × GeventEntry)
    (h : st.gevent_pool.find? (fun q => decide (q.1 = gevent_key url r))
      = some p) :
    gevent_from_pool st url r = .ok (p.2, st) := by
  simp [gevent_from_pool, h]

theorem gevent_from_pool_full (st : ClientState) (url : URLp) (r : HttpRequest)
    (hmiss : st.gevent_pool.find? (fun q => decide (q.1 = gevent_key url r))
      = none)
    (hfull : st.gevent_pool.length ≥ st.gevent_pool_max) :
    gevent_from_pool st url r
      = .error (.geventPoolMaxed st.gevent_pool.length st.gevent_pool_max) := by
  simp [gevent_from_pool, hmiss, hfull]

theorem gevent_from_pool_alloc (st : ClientState) (url : URLp)
    (r : HttpRequest)
    (hmiss : st.gevent_pool.find? (fun q => decide (q.1 = gevent_key url r))
      = none)
    (hroom : st.gevent_pool.length < st.gevent_pool_max) :
    gevent_from_pool st url r
      = .ok (gevent_alloc_entry st r,
          { st with
              gevent_pool := st.gevent_pool
                ++ [(gevent_key url r, gevent_alloc_entry st r)]
              next_eid := st.next_eid + 1 }) := by
  have hn : ¬ st.gevent_pool.length ≥ st.gevent_pool_max := by omega
  simp [gevent_from_pool, hmiss, hn]

theorem gevent_from_pool_bound (st : ClientState) (url : URLp)
    (r : HttpRequest) (e : GeventEntry) (st' : ClientState)
    (hb : st.gevent_pool.length ≤ st.gevent_pool_max)
    (h : gevent_from_pool st url r = .ok (e, st')) :
    st'.gevent_pool.length ≤ st.gevent_pool_max := by
  cases hf : st.gevent_pool.find? (fun q => decide (q.1 = gevent_key url r))
    with
  | some p =>
    rw [gevent_from_pool_hit st url r p hf] at h
    obtain ⟨-, rfl⟩ : p.2 = e ∧ st = st' := by
      simpa using h
    exact hb
  | none =>
    by_cases hfull : st.gevent_pool.length ≥ st.gevent_pool_max
    · rw [gevent_from_pool_full st url r hf hfull] at h
      cases h
    · have hroom : st.gevent_pool.length < st.gevent_pool_max := by omega
      rw [gevent_from_pool_alloc st url r hf hroom] at h
      obtain ⟨-, rfl⟩ :
          gevent_alloc_entry st r = e ∧
          ({ st with
              gevent_pool := st.gevent_pool
                ++ [(gevent_key url r, gevent_alloc_entry st r)]
              next_eid := st.next_eid + 1 } : ClientState) = st' := by
        simpa using h
      simpa using hroom

theorem urllib3_from_pool_hit (st : ClientState) (r : HttpRequest)
    (p : U3Key × U3Entry) (hp : truthyS r.http_proxy_host = true)
    (h : st.u3_proxy_pool.find? (fun q => decide (q.1 = u3_key r)) = some p) :
    urllib3_from_pool st r = .ok (.proxy p.2, st) := by
  simp [urllib3_from_pool, hp, h]

theorem urllib3_from_pool_full (st : ClientState) (r : HttpRequest)
    (hp : truthyS r.http_proxy_host = true)
    (hmiss : st.u3_proxy_pool.find? (fun q => decide (q.1 = u3_key r)) = none)
    (hfull : st.u3_proxy_pool.length ≥ st.u3_proxy_pool_max) :
    urllib3_from_pool st r
      = .error (.u3PoolMaxed st.u3_proxy_pool.length st.u3_proxy_pool_max) := by
  simp [urllib3_from_pool, hp, hmiss, hfull]

theorem urllib3_from_pool_alloc (st : ClientState) (r : HttpRequest)
    (hp : truthyS r.http_proxy_host = true)
    (hmiss : st.u3_proxy_pool.find? (fun q => decide (q.1 = u3_key r)) = none)
    (hroom : st.u3_proxy_pool.length < st.u3_proxy_pool_max) :
    urllib3_from_pool st r
      = .ok (.proxy { pid := st.u3_next_pid
                      proxy_url := "http://" ++ r.http_proxy_host.getD ""
                        ++ ":" ++ toString r.http_proxy_port },
          { st with
              u3_proxy_pool := st.u3_proxy_pool
                ++ [(u3_key r,
                      { pid := st.u3_next_pid
                        proxy_url := "http://" ++ r.http_proxy_host.getD ""
                          ++ ":" ++ toString r.http_proxy_port })]
              u3_next_pid := st.u3_next_pid + 1 }) := by
  have hn : ¬ st.u3_proxy_pool.length ≥ st.u3_proxy_pool_max := by omega
  simp [urllib3_from_pool, hp, hmiss, hn]

theorem urllib3_from_pool_bound (st : ClientState) (r : HttpRequest)
    (u : U3Pool) (st' : ClientState)
    (hb : st.u3_proxy_pool.length ≤ st.u3_proxy_pool_max)
    (h : urllib3_from_pool st r = .ok (u, st')) :
    st'.u3_proxy_pool.length ≤ st.u3_proxy_pool_max := by
  by_cases hp : truthyS r.http_proxy_host = false
  · rw [c9_shared_direct_pool st r hp] at h
    obtain ⟨-, rfl⟩ : U3Pool.basic st.u3_basic_pool = u ∧ st = st' := by
      simpa using h
    exact hb
  · have hp' : truthyS r.http_proxy_host = true := by
      simpa using hp
    cases hf : st.u3_proxy_pool.find? (fun q => decide (q.1 = u3_key r)) with
    | some p =>
      rw [urllib3_from_pool_hit st r p hp' hf] at h
      obtain ⟨-, rfl⟩ : U3Pool.proxy p.2 = u ∧ st = st' := by
        simpa using h
      exact hb
    | none =>
      by_cases hfull : st.u3_proxy_pool.length ≥ st.u3_proxy_pool_max
      · rw [urllib3_from_pool_full st r hp' hf hfull] at h
        cases h
      · have hroom : st.u3_proxy_pool.length < st.u3_proxy_pool_max := by
          omega
        rw [urllib3_from_pool_alloc st r hp' hf hroom] at h
        obtain ⟨-, rfl⟩ :
            U3Pool.proxy
                { pid := st.u3_next_pid
                  proxy_url := "http://" ++ r.http_proxy_host.getD ""
                    ++ ":" ++ toString r.http_proxy_port } = u ∧
            ({ st with
                u3_proxy_pool := st.u3_proxy_pool
                  ++ [(u3_key r,
                        { pid := st.u3_next_pid
                          proxy_url := "http://" ++ r.http_proxy_host.getD ""
                            ++ ":" ++ toString r.http_proxy_port })]
                u3_next_pid := st.u3_next_pid + 1 } : ClientState) = st' := by
          simpa using h
        simpa using hroom

/-! ### C4: registry capacity and get-or-create discipline -/

/-- C4: for each keyed registry (gevent direct pool, urllib3 proxy pool) the
configured capacity defaults to 1024 and is never exceeded; a lookup whose
key is present returns the existing entry without raising, and a lookup with
a new key when the registry is at least at capacity raises a
capacity-exceeded error instead of inserting. -/
theorem c4_registry_capacity (st : ClientState) (url : URLp)
    (r : HttpRequest) :
    ({} : ClientState).gevent_pool_max = 1024 ∧
    ({} : ClientState).u3_proxy_pool_max = 1024 ∧
    (∀ p, st.gevent_pool.find? (fun q => decide (q.1 = gevent_key url r))
        = some p →
      gevent_from_pool st url r = .ok (p.2, st)) ∧
    (st.gevent_pool.find? (fun q => decide (q.1 = gevent_key url r)) = none →
      st.gevent_pool.length ≥ st.gevent_pool_max →
      gevent_from_pool st url r
        = .error (.geventPoolMaxed st.gevent_pool.length
            st.gevent_pool_max)) ∧
    (∀ e st', st.gevent_pool.length ≤ st.gevent_pool_max →
      gevent_from_pool st url r = .ok (e, st') →
      st'.gevent_pool.length ≤ st.gevent_pool_max) ∧
    (∀ p, truthyS r.http_proxy_host = true →
      st.u3_proxy_pool.find? (fun q => decide (q.1 = u3_key r)) = some p →
      urllib3_from_pool st r = .ok (.proxy p.2, st)) ∧
    (truthyS r.http_proxy_host = true →
      st.u3_proxy_pool.find? (fun q => decide (q.1 = u3_key r)) = none →
      st.u3_proxy_pool.length ≥ st.u3_proxy_pool_max →
      urllib3_from_pool st r
        = .error (.u3PoolMaxed st.u3_proxy_pool.length
            st.u3_proxy_pool_max)) ∧
    (∀ u st', st.u3_proxy_pool.length ≤ st.u3_proxy_pool_max →
      urllib3_from_pool st r = .ok (u, st') →
      st'.u3_proxy_pool.length ≤ st.u3_proxy_pool_max) :=
  ⟨rfl, rfl,
   fun p hp => gevent_from_pool_hit st url r p hp,
   fun hm hf => gevent_from_pool_full st url r hm hf,
   fun e st' hb h => gevent_from_pool_bound st url r e st' hb h,
   fun p hp hf => urllib3_from_pool_hit st r p hp hf,
   fun hp hm hf => urllib3_from_pool_full st r hp hm hf,
   fun u st' hb h => urllib3_from_pool_bound st r u st' hb h⟩

/-- C4 witness: hit, capacity-exhaustion and bound-preservation on concrete
registries for both pools. -/
theorem c4_registry_capacity_witness :
    gevent_from_pool stHitG urlW reqW = .ok (entW, stHitG) ∧
    gevent_from_pool stFullG urlW reqW = .error (.geventPoolMaxed 0 0) ∧
    stHitG.gevent_pool.length ≤ stHitG.gevent_pool_max ∧
    urllib3_from_pool stHitU rProxy = .ok (.proxy pW, stHitU) ∧
    urllib3_from_pool stFullU rProxy = .error (.u3PoolMaxed 0 0) ∧
    stHitU.u3_proxy_pool.length ≤ stHitU.u3_proxy_pool_max := by
  obtain ⟨-, -, ghit, -, gbound, -, -, -⟩ :=
    c4_registry_capacity stHitG urlW reqW
  obtain ⟨-, -, -, gfull, -, -, -, -⟩ :=
    c4_registry_capacity stFullG urlW reqW
  obtain ⟨-, -, -, -, -, uhit, -, ubound⟩ :=
    c4_registry_capacity stHitU urlW rProxy
  obtain ⟨-, -, -, -, -, -, ufull, -⟩ :=
    c4_registry_capacity stFullU urlW rProxy
  have e1 : gevent_from_pool stHitG urlW reqW = .ok (entW, stHitG) :=
    ghit (gevent_key urlW reqW, entW) (by rfl)
  have e2 : urllib3_from_pool stHitU rProxy = .ok (.proxy pW, stHitU) :=
    uhit (u3_key rProxy, pW) (by decide) (by rfl)
  exact ⟨e1, gfull (by rfl) (by decide), gbound entW stHitG (by decide) e1,
    e2, ufull (by decide) (by rfl) (by decide),
    ubound (.proxy pW) stHitU (by decide) e2⟩

/-! ### C10: whole-second truncation of gevent pool keys -/

/-- C10: the gevent registry key converts the millisecond timeouts to
seconds by integer division by 1000, so two requests identical in the other
connection-relevant attributes whose timeouts fall in the same whole second
produce the same key and reuse one pool entry; the entry allocated on a miss
carries the truncated whole-second timeout values. -/
theorem c10_key_truncation (url : URLp) (r1 r2 : HttpRequest)
    (hc : r1.connection_timeout_ms / 1000 = r2.connection_timeout_ms / 1000)
    (hn : r1.network_timeout_ms / 1000 = r2.network_timeout_ms / 1000)
    (hi : r1.https_insecure = r2.https_insecure)
    (h6 : r1.disable_ipv6 = r2.disable_ipv6)
    (hcc : r1.http_concurrency = r2.http_concurrency)
    (hph : r1.http_proxy_host = r2.http_proxy_host)
    (hpp : r1.http_proxy_port = r2.http_proxy_port) :
    gevent_key url r1 = gevent_key url r2 ∧
    (∀ st e st', gevent_from_pool st url r1 = .ok (e, st') →
      gevent_from_pool st' url r2 = .ok (e, st')) ∧
    (∀ st e st',
      st.gevent_pool.find? (fun q => decide (q.1 = gevent_key url r1))
        = none →
      gevent_from_pool st url r1 = .ok (e, st') →
      e.connection_timeout = r1.connection_timeout_ms / 1000 ∧
      e.network_timeout = r1.network_timeout_ms / 1000) := by
  have hk12 : gevent_key url r1 = gevent_key url r2 := by
    simp [gevent_key, hc, hn, hi, h6, hcc, hph, hpp]
  refine ⟨hk12, ?_, ?_⟩
  · intro st e st' h
    cases hf : st.gevent_pool.find?
        (fun q => decide (q.1 = gevent_key url r1)) with
    | some p =>
      rw [gevent_from_pool_hit st url r1 p hf] at h
      obtain ⟨rfl, rfl⟩ : p.2 = e ∧ st = st' := by
        simpa using h
      have hf2 : st.gevent_pool.find?
          (fun q => decide (q.1 = gevent_key url r2)) = some p := by
        rw [← hk12]
        exact hf
      exact gevent_from_pool_hit st url r2 p hf2
    | none =>
      by_cases hfull : st.gevent_pool.length ≥ st.gevent_pool_max
      · rw [gevent_from_pool_full st url r1 hf hfull] at h
        cases h
      · have hroom : st.gevent_pool.length < st.gevent_pool_max := by omega
        rw [gevent_from_pool_alloc st url r1 hf hroom] at h
        obtain ⟨rfl, rfl⟩ :
            gevent_alloc_entry st r1 = e ∧
            ({ st with
                gevent_pool := st.gevent_pool
                  ++ [(gevent_key url r1, gevent_alloc_entry st r1)]
                next_eid := st.next_eid + 1 } : ClientState) = st' := by
          simpa using h
        have hf2 : (st.gevent_pool
            ++ [(gevent_key url r1, gevent_alloc_entry st r1)]).find?
              (fun q => decide (q.1 = gevent_key url r2))
            = some (gevent_key url r1, gevent_alloc_entry st r1) := by
          rw [← hk12]
          exact find?_append_self st.gevent_pool (gevent_key url r1)
            (gevent_alloc_entry st r1) hf
        exact gevent_from_pool_hit _ url r2
          (gevent_key url r1, gevent_alloc_entry st r1) hf2
  · intro st e st' hf h
    by_cases hfull : st.gevent_pool.length ≥ st.gevent_pool_max
    · rw [gevent_from_pool_full st url r1 hf hfull] at h
      cases h
    · have hroom : st.gevent_pool.length < st.gevent_pool_max := by omega
      rw [gevent_from_pool_alloc st url r1 hf hroom] at h
      obtain ⟨rfl, -⟩ :
          gevent_alloc_entry st r1 = e ∧
          ({ st with
              gevent_pool := st.gevent_pool
                ++ [(gevent_key url r1, gevent_alloc_entry st r1)]
              next_eid := st.next_eid + 1 } : ClientState) = st' := by
        simpa using h
      exact ⟨rfl, rfl⟩

/-- C10 witness: 1000 ms and 1999 ms timeouts share one key, the second
request reuses the entry the first allocated, and that entry is built with
the timeouts truncated to 1 second. -/
theorem c10_key_truncation_witness :
    gevent_key urlW rT1 = gevent_key urlW rT2 ∧
    gevent_from_pool stT1 urlW rT2 = .ok (entT1, stT1) ∧
    entT1.connection_timeout = rT1.connection_timeout_ms / 1000 ∧
    entT1.network_timeout = rT1.network_timeout_ms / 1000 ∧
    entT1.connection_timeout = 1 := by
  obtain ⟨hkey, hreuse, halloc⟩ :=
    c10_key_truncation urlW rT1 rT2 (by decide) (by decide) rfl rfl rfl rfl
      rfl
  have h1 : gevent_from_pool ({} : ClientState) urlW rT1 = .ok (entT1, stT1) :=
    by rfl
  obtain ⟨hct, hnt⟩ := halloc {} entT1 stT1 (by rfl) h1
  exact ⟨hkey, hreuse {} entT1 stT1 h1, hct, hnt, rfl⟩

/-! ### Dispatcher lemmas -/

theorem record_exn_exn (out : StepOut) : (record_exn out).exn = out.exn := by
  unfold record_exn
  split <;> simp_all

theorem record_exn_exception_of_some (out : StepOut) (e : Exn)
    (h : out.exn = some e) : (record_exn out).resp.exception = some e := by
  unfold record_exn
  rw [h]

theorem record_exn_exception_of_none (out : StepOut) (h : out.exn = none) :
    (record_exn out).resp.exception = out.resp.exception := by
  unfold record_exn
  rw [h]

theorem gevent_from_pool_error_ne_timeout (st : ClientState) (url : URLp)
    (r : HttpRequest) (e : Exn) (q : ℚ)
    (h : gevent_from_pool st url r = .error e) : e ≠ .timeout q := by
  cases hf : st.gevent_pool.find? (fun p => decide (p.1 = gevent_key url r))
    with
  | some p =>
    rw [gevent_from_pool_hit st url r p hf] at h
    cases h
  | none =>
    by_cases hfull : st.gevent_pool.length ≥ st.gevent_pool_max
    · rw [gevent_from_pool_full st url r hf hfull] at h
      obtain rfl :
          Exn.geventPoolMaxed st.gevent_pool.length st.gevent_pool_max = e :=
        by simpa using h
      simp
    · rw [gevent_from_pool_alloc st url r hf (by omega)] at h
      cases h

theorem urllib3_from_pool_error_ne_timeout (st : ClientState)
    (r : HttpRequest) (e : Exn) (q : ℚ)
    (h : urllib3_from_pool st r = .error e) : e ≠ .timeout q := by
  by_cases hp : truthyS r.http_proxy_host = false
  · rw [c9_shared_direct_pool st r hp] at h
    cases h
  · have hp' : truthyS r.http_proxy_host = true := by simpa using hp
    cases hf : st.u3_proxy_pool.find? (fun p => decide (p.1 = u3_key r)) with
    | some p =>
      rw [urllib3_from_pool_hit st r p hp' hf] at h
      cases h
    | none =>
      by_cases hfull : st.u3_proxy_pool.length ≥ st.u3_proxy_pool_max
      · rw [urllib3_from_pool_full st r hp' hf hfull] at h
        obtain rfl :
            Exn.u3PoolMaxed st.u3_proxy_pool.length st.u3_proxy_pool_max = e :=
          by simpa using h
        simp
      · rw [urllib3_from_pool_alloc st r hp' hf (by omega)] at h
        cases h

theorem gevent_select_method_error_ne_timeout (m pd : Option String) (e : Exn)
    (q : ℚ) (h : gevent_select_method m pd = .error e) : e ≠ .timeout q := by
  unfold gevent_select_method at h
  repeat' split at h
  all_goals cases h
  all_goals simp

theorem u3_select_method_error_ne_timeout (m pd : Option String) (e : Exn)
    (q : ℚ) (h : u3_select_method m pd = .error e) : e ≠ .timeout q := by
  unfold u3_select_method at h
  repeat' split at h
  all_goals cases h
  all_goals simp

theorem go_gevent_resp_exception (env : Env) (r : HttpRequest)
    (st : ClientState) (resp : HttpResponse) :
    (_go_gevent env r st resp).resp.exception = resp.exception := by
  unfold _go_gevent
  cases hpool : gevent_from_pool st (env.parse_url r.uri) r with
  | error e => simp [hpool]
  | ok pr =>
    cases hm : gevent_select_method r.method r.post_data with
    | error e => simp [hpool, hm]
    | ok c =>
      cases hg : env.gevent_net with
      | error msg => simp [hpool, hm, hg]
      | ok o => cases o <;> simp [hpool, hm, hg]

theorem go_urllib3_resp_exception (env : Env) (r : HttpRequest)
    (st : ClientState) (resp : HttpResponse) :
    (_go_urllib3 env r st resp).resp.exception = resp.exception := by
  unfold _go_urllib3
  cases hpool : urllib3_from_pool st r with
  | error e => simp [hpool]
  | ok pr =>
    cases hm : u3_select_method r.method r.post_data with
    | error e => simp [hpool, hm]
    | ok c =>
      cases hg : env.u3_net with
      | error msg => simp [hpool, hm, hg]
      | ok nr => simp [hpool, hm, hg]

theorem go_gevent_exn_ne_timeout (env : Env) (r : HttpRequest)
    (st : ClientState) (resp : HttpResponse) (q : ℚ) :
    (_go_gevent env r st resp).exn ≠ some (.timeout q) := by
  unfold _go_gevent
  cases hpool : gevent_from_pool st (env.parse_url r.uri) r with
  | error e =>
    simpa [hpool] using
      gevent_from_pool_error_ne_timeout st (env.parse_url r.uri) r e q hpool
  | ok pr =>
    cases hm : gevent_select_method r.method r.post_data with
    | error e =>
      simpa [hpool, hm] using
        gevent_select_method_error_ne_timeout r.method r.post_data e q hm
    | ok c =>
      cases hg : env.gevent_net with
      | error msg => simp [hpool, hm, hg]
      | ok o => cases o <;> simp [hpool, hm, hg]

theorem go_urllib3_exn_ne_timeout (env : Env) (r : HttpRequest)
    (st : ClientState) (resp : HttpResponse) (q : ℚ) :
    (_go_urllib3 env r st resp).exn ≠ some (.timeout q) := by
  unfold _go_urllib3
  cases hpool : urllib3_from_pool st r with
  | error e =>
    simpa [hpool] using urllib3_from_pool_error_ne_timeout st r e q hpool
  | ok pr =>
    cases hm : u3_select_method r.method r.post_data with
    | error e =>
      simpa [hpool, hm] using
        u3_select_method_error_ne_timeout r.method r.post_data e q hm
    | ok c =>
      cases hg : env.u3_net with
      | error msg => simp [hpool, hm, hg]
      | ok nr => simp [hpool, hm, hg]

theorem dispatch_resp_exception (env : Env) (r : HttpRequest)
    (st : ClientState) (resp : HttpResponse) :
    (dispatch_impl env r st resp).resp.exception = resp.exception := by
  unfold dispatch_impl
  by_cases h1 : resolve_impl r (env.parse_url r.uri) = HTTP_IMPL_GEVENT
  · simpa [h1] using go_gevent_resp_exception env r st resp
  · by_cases h3 : resolve_impl r (env.parse_url r.uri) = HTTP_IMPL_URLLIB3
    · simpa [h1, h3] using go_urllib3_resp_exception env r st resp
    · simp [h1, h3]

theorem dispatch_exn_ne_timeout (env : Env) (r : HttpRequest)
    (st : ClientState) (resp : HttpResponse) (q : ℚ) :
    (dispatch_impl env r st resp).exn ≠ some (.timeout q) := by
  unfold dispatch_impl
  by_cases h1 : resolve_impl r (env.parse_url r.uri) = HTTP_IMPL_GEVENT
  · simpa [h1] using go_gevent_exn_ne_timeout env r st resp q
  · by_cases h3 : resolve_impl r (env.parse_url r.uri) = HTTP_IMPL_URLLIB3
    · simpa [h1, h3] using go_urllib3_exn_ne_timeout env r st resp q
    · simp [h1, h3]

theorem internal_records_exn (env : Env) (r : HttpRequest) (st : ClientState)
    (resp : HttpResponse) (e : Exn)
    (h : (_go_http_internal env r st resp).exn = some e) :
    (_go_http_internal env r st resp).resp.exception = some e := by
  unfold _go_http_internal at h ⊢
  rw [record_exn_exn] at h
  exact record_exn_exception_of_some _ e h

theorem internal_exception_of_exn_none (env : Env) (r : HttpRequest)
    (st : ClientState) (resp : HttpResponse)
    (h : (_go_http_internal env r st resp).exn = none) :
    (_go_http_internal env r st resp).resp.exception = resp.exception := by
  unfold _go_http_internal at h ⊢
  rw [record_exn_exn] at h
  rw [record_exn_exception_of_none _ h]
  exact dispatch_resp_exception env r st resp

theorem internal_exn_ne_timeout (env : Env) (r : HttpRequest)
    (st : ClientState) (resp : HttpResponse) (q : ℚ) :
    (_go_http_internal env r st resp).exn ≠ some (.timeout q) := by
  unfold _go_http_internal
  rw [record_exn_exn]
  exact dispatch_exn_ne_timeout env r st resp q

/-! ### C1: exception propagation at the go_http boundary -/

/-- C1 counterexample: a request with an invalid method token makes the
exception escape `go_http` to its caller, although it is not a registry
capacity exhaustion — refuting the claim that every non-capacity failure is
absorbed at the `go_http` boundary. -/
theorem c1_exception_propagation_cex :
    (go_http envW {} rBadMethod).exn = some (.invalidU3Method "FOO") ∧
    (go_http envW {} rBadMethod).exn ≠ none := by
  refine ⟨by rfl, ?_⟩
  intro h
  rw [show (go_http envW {} rBadMethod).exn = some (.invalidU3Method "FOO")
    from rfl] at h
  cases h

/-- C1 (amended): `go_http` absorbs only the deadline guard's Timeout,
recording it in the response's exception field; every other failure raised
during backend selection or execution is stored in the response's exception
field and still propagates out of `go_http` to the caller (this includes
registry capacity exhaustion). -/
theorem c1_exception_propagation (env : Env) (st : ClientState)
    (r : HttpRequest) :
    (env.times_out = true →
      (go_http env st r).exn = none ∧
      (go_http env st r).resp.exception
        = some (.timeout (general_timeout_sec r))) ∧
    (∀ e, (go_http env st r).exn = some e →
      (go_http env st r).resp.exception = some e ∧ env.times_out = false) ∧
    (env.times_out = false →
      (go_http env st r).exn
        = (_go_http_internal env r st { http_request := some r }).exn) := by
  by_cases ht : env.times_out
  · refine ⟨fun _ => ⟨by simp [go_http, ht], by simp [go_http, ht]⟩,
      fun e he => absurd he (by simp [go_http, ht]),
      fun hf => absurd ht (by simp [hf])⟩
  · have ht' : env.times_out = false := by simpa using ht
    have hexn : (go_http env st r).exn
        = (_go_http_internal env r st { http_request := some r }).exn := by
      simp [go_http, ht']
    have hexc : (go_http env st r).resp.exception
        = (_go_http_internal env r st
            { http_request := some r }).resp.exception := by
      simp [go_http, ht']
    refine ⟨fun h => absurd h (by simp [ht']), fun e he => ?_, fun _ => hexn⟩
    refine ⟨?_, ht'⟩
    rw [hexc]
    exact internal_records_exn env r st _ e (by rw [← hexn]; exact he)

/-- C1 witness: the amended propagation law at a timing-out environment, at
an invalid-method request, and at a default request. -/
theorem c1_exception_propagation_witness :
    (go_http envTO {} reqW).exn = none ∧
    ((go_http envW {} rBadMethod).resp.exception
        = some (.invalidU3Method "FOO") ∧ envW.times_out = false) ∧
    (go_http envW {} reqW).exn
      = (_go_http_internal envW reqW {} { http_request := some reqW }).exn := by
  obtain ⟨h1, -, -⟩ := c1_exception_propagation envTO {} reqW
  obtain ⟨-, g2, -⟩ := c1_exception_propagation envW {} rBadMethod
  obtain ⟨-, -, f3⟩ := c1_exception_propagation envW {} reqW
  exact ⟨(h1 rfl).1, g2 (.invalidU3Method "FOO") (by rfl), f3 rfl⟩

/-! ### C2: forced-backend selection -/

/-- C2 counterexample: a request explicitly forcing the gevent backend, with
a proxy host set and an https scheme, resolves to urllib3 — the proxy+TLS
override applies even over an explicit force, refuting the claim that the
forced backend is used verbatim in this situation. -/
theorem c2_forced_backend_cex :
    rForceA.force_http_implementation = some HTTP_IMPL_GEVENT ∧
    truthyS rForceA.http_proxy_host = true ∧
    (envW.parse_url rForceA.uri).scheme = PROTO_HTTPS ∧
    resolve_impl rForceA (envW.parse_url rForceA.uri) ≠ HTTP_IMPL_GEVENT ∧
    resolve_impl rForceA (envW.parse_url rForceA.uri) = HTTP_IMPL_URLLIB3 ∧
    (_go_http_internal envW rForceA {} {}).resp.http_implementation
      = some HTTP_IMPL_URLLIB3 := by
  exact ⟨rfl, by decide, rfl, by decide, by rfl, by rfl⟩

/-- C2 (amended): when the proxy-plus-TLS condition does not hold, an
explicitly forced backend is used verbatim (and an absent force defaults to
urllib3); when a truthy proxy host meets an https scheme, urllib3 is chosen
even over an explicit force. -/
theorem c2_forced_backend (r : HttpRequest) (url : URLp) :
    ((truthyS r.http_proxy_host && (url.scheme == PROTO_HTTPS)) = true →
      resolve_impl r url = HTTP_IMPL_URLLIB3) ∧
    ((truthyS r.http_proxy_host && (url.scheme == PROTO_HTTPS)) = false →
      ∀ i, r.force_http_implementation = some i → resolve_impl r url = i) ∧
    ((truthyS r.http_proxy_host && (url.scheme == PROTO_HTTPS)) = false →
      r.force_http_implementation = none →
      resolve_impl r url = HTTP_IMPL_URLLIB3) := by
  refine ⟨fun h => ?_, fun h i hf => ?_, fun h hf => ?_⟩
  · simp [resolve_impl, h]
  · simp [resolve_impl, h, hf]
  · simp [resolve_impl, h, hf]

/-- C2 witness: the amended selection law at a forced-gevent proxy+https
request, a forced-gevent plain request, and an unforced plain request. -/
theorem c2_forced_backend_witness :
    resolve_impl rForceA urlW = HTTP_IMPL_URLLIB3 ∧
    resolve_impl { force_http_implementation := some HTTP_IMPL_GEVENT } urlH
      = HTTP_IMPL_GEVENT ∧
    resolve_impl reqW urlH = HTTP_IMPL_URLLIB3 := by
  obtain ⟨a, -, -⟩ := c2_forced_backend rForceA urlW
  obtain ⟨-, b, -⟩ := c2_forced_backend
    { force_http_implementation := some HTTP_IMPL_GEVENT } urlH
  obtain ⟨-, -, c⟩ := c2_forced_backend reqW urlH
  exact ⟨a (by decide), b (by decide) HTTP_IMPL_GEVENT rfl, c (by decide) rfl⟩

/-! ### C3: deadline guard behaviour -/

/-- C3: when the general deadline expires, `go_http` returns (does not
raise) a response whose exception is a timeout carrying the configured
deadline value in seconds, with status code and body at their zero values;
elapsed time is recorded on every exit path; a call completing before the
deadline never carries a timeout exception. -/
theorem c3_deadline_behaviour (env : Env) (st : ClientState)
    (r : HttpRequest) :
    (env.times_out = true →
      (go_http env st r).exn = none ∧
      (go_http env st r).resp.exception
        = some (.timeout (general_timeout_sec r)) ∧
      (go_http env st r).resp.status_code = none ∧
      (go_http env st r).resp.buffer = none ∧
      (go_http env st r).resp.content_length = 0) ∧
    (env.times_out = false →
      ∀ q, (go_http env st r).resp.exception ≠ some (.timeout q)) ∧
    (go_http env st r).resp.elapsed_ms = some env.elapsed_ms := by
  by_cases ht : env.times_out
  · refine ⟨fun _ => ?_, fun hf => absurd ht (by simp [hf]), ?_⟩
    · refine ⟨?_, ?_, ?_, ?_, ?_⟩ <;> simp [go_http, ht]
    · simp [go_http, ht]
  · have ht' : env.times_out = false := by simpa using ht
    refine ⟨fun h => absurd h (by simp [ht']), fun _ q => ?_, ?_⟩
    · have hexc : (go_http env st r).resp.exception
          = (_go_http_internal env r st
              { http_request := some r }).resp.exception := by
        simp [go_http, ht']
      rw [hexc]
      cases hx : (_go_http_internal env r st { http_request := some r }).exn
        with
      | none =>
        rw [internal_exception_of_exn_none env r st _ hx]
        simp
      | some e =>
        rw [internal_records_exn env r st _ e hx]
        intro hcon
        obtain rfl : e = .timeout q := by simpa using hcon
        exact internal_exn_ne_timeout env r st _ q hx
    · simp [go_http, ht']

/-- C3 witness: the deadline law at a timing-out environment and at a
completing one. -/
theorem c3_deadline_behaviour_witness :
    (go_http envTO {} reqW).exn = none ∧
    (go_http envTO {} reqW).resp.exception
      = some (.timeout (general_timeout_sec reqW)) ∧
    (go_http envTO {} reqW).resp.status_code = none ∧
    (go_http envTO {} reqW).resp.buffer = none ∧
    (go_http envTO {} reqW).resp.content_length = 0 ∧
    (go_http envTO {} reqW).resp.elapsed_ms = some 42 ∧
    (go_http envW {} reqW).resp.exception ≠ some (.timeout 30) := by
  obtain ⟨h1, -, h3⟩ := c3_deadline_behaviour envTO {} reqW
  obtain ⟨-, g2, -⟩ := c3_deadline_behaviour envW {} reqW
  obtain ⟨a1, a2, a3, a4, a5⟩ := h1 rfl
  exact ⟨a1, a2, a3, a4, a5, h3, g2 rfl 30⟩

/-! ### C8: content-length resolution -/

/-- C8 counterexample: a urllib3-backend call whose network result reports
content length 5 with an empty body yields a response with content length 0,
not the reported 5 — refuting the claim that the reported-length-first
resolution applies to both backends. -/
theorem c8_content_length_cex :
    envU3Len.u3_net
      = .ok { status_code := 200, body := "", content_length := some 5,
              headers := [] } ∧
    (_go_urllib3 envU3Len reqW {} {}).exn = none ∧
    (_go_urllib3 envU3Len reqW {} {}).resp.content_length = 0 ∧
    (_go_urllib3 envU3Len reqW {} {}).resp.content_length ≠ 5 := by
  refine ⟨rfl, by rfl, by rfl, ?_⟩
  intro h
  rw [show (_go_urllib3 envU3Len reqW {} {}).resp.content_length = 0
    from rfl] at h
  cases h

/-- C8 (amended): the gevent backend resolves content length as the
backend-reported value when one is reported truthy (non-zero), else the
byte length of the returned body (0 for an empty body); the urllib3 backend
always uses the byte length of the returned body, ignoring any reported
length. -/
theorem c8_content_length (env : Env) (r : HttpRequest) (st : ClientState)
    (resp : HttpResponse) (nr : NetResp) :
    (env.gevent_net = .ok (some nr) →
      (_go_gevent env r st resp).exn = none →
      (∀ n, nr.content_length = some n → n ≠ 0 →
        (_go_gevent env r st resp).resp.content_length = n) ∧
      ((nr.content_length = none ∨ nr.content_length = some 0) →
        (_go_gevent env r st resp).resp.content_length = nr.body.length)) ∧
    (env.u3_net = .ok nr →
      (_go_urllib3 env r st resp).exn = none →
      (_go_urllib3 env r st resp).resp.content_length = nr.body.length) := by
  constructor
  · intro hg hx
    cases hpool : gevent_from_pool st (env.parse_url r.uri) r with
    | error e => simp [_go_gevent, hpool] at hx
    | ok pr =>
      cases hm : gevent_select_method r.method r.post_data with
      | error e => simp [_go_gevent, hpool, hm] at hx
      | ok c =>
        have hcl : (_go_gevent env r st resp).resp.content_length
            = gevent_content_length nr.content_length nr.body := by
          simp [_go_gevent, hpool, hm, hg]
        constructor
        · intro n hn hnz
          rw [hcl]
          simp [gevent_content_length, hn, hnz]
        · intro hrep
          rw [hcl]
          by_cases hb : nr.body = "" <;>
            rcases hrep with h0 | h0 <;>
              simp [gevent_content_length, h0, hb]
  · intro hu hx
    cases hpool : urllib3_from_pool st r with
    | error e => simp [_go_urllib3, hpool] at hx
    | ok pr =>
      cases hm : u3_select_method r.method r.post_data with
      | error e => simp [_go_urllib3, hpool, hm] at hx
      | ok c => simp [_go_urllib3, hpool, hm, hu]

/-- C8 witness: the resolution at a reported length 5 with body "abc", no
reported length with body "abc", and a urllib3 body "ab" with an ignored
reported length 99. -/
theorem c8_content_length_witness :
    (_go_gevent envGLen5 reqW {} {}).resp.content_length = 5 ∧
    (_go_gevent envGNoLen reqW {} {}).resp.content_length = 3 ∧
    (_go_urllib3 envU3Body reqW {} {}).resp.content_length = 2 := by
  obtain ⟨g5, -⟩ := c8_content_length envGLen5 reqW {} {}
    { body := "abc", content_length := some 5 }
  obtain ⟨gn, -⟩ := c8_content_length envGNoLen reqW {} {}
    { body := "abc", content_length := none }
  obtain ⟨-, u⟩ := c8_content_length envU3Body reqW {} {}
    { body := "ab", content_length := some 99 }
  refine ⟨(g5 rfl (by rfl)).1 5 rfl (by decide), ?_, ?_⟩
  · exact ((gn rfl (by rfl)).2 (Or.inl rfl)).trans (by rfl)
  · exact (u rfl (by rfl)).trans (by rfl)

end PysolHttp
